import Mathlib

/-!
Verification development for the voice-assistant medical pipeline.

The Python sources are shallowly embedded: Python strings are modelled as
`List Char` (named `Str`), Python `None`-able values as `Option`, and the
external oracles (Deepgram speech recognition, Gemini text generation,
SendGrid email delivery) as explicit parameters enumerating the outcomes
the code can observe.  Side effects (calls to the email collaborator) are
logged in the returned value.
-/

/-- Python strings are modelled as lists of characters. -/
abbrev Str := List Char

/-- Converts a Lean string literal to the `Str` model. -/
def str (s : String) : Str := s.data

/-- The whitespace predicate of Python `str.strip()` (ASCII part). -/
def isPySpace (c : Char) : Bool :=
  c = ' ' ∨ c = '\t' ∨ c = '\n' ∨ c = '\r' ∨ c = '\x0b' ∨ c = '\x0c'

/-- Python `s.strip()`: drop leading and trailing whitespace. -/
def pstrip (s : Str) : Str :=
  ((s.dropWhile isPySpace).reverse.dropWhile isPySpace).reverse

/-- Python `s.lower()` (ASCII letters, as used by the source's keyword lists). -/
def pyLower (s : Str) : Str := s.map Char.toLower

/-- Splits `s` at the first occurrence of the non-empty separator `sep`,
returning the parts before and after it, or `none` when `sep` does not occur.
This models Python `s.split(sep, 1)` and, via `isSome`, the `sep in s` test. -/
def pySplitFirst? (sep : Str) : Str → Option (Str × Str)
  | [] => if sep = [] then some ([], []) else none
  | c :: rest =>
    if sep.isPrefixOf (c :: rest) then some ([], (c :: rest).drop sep.length)
    else match pySplitFirst? sep rest with
      | some (a, b) => some (c :: a, b)
      | none => none

/-- Python `needle in hay` for a non-empty needle. -/
def pyContains (hay needle : Str) : Bool := (pySplitFirst? needle hay).isSome

/-- Python `s.split(sep)` for a single-character separator. -/
def splitChar (sep : Char) : Str → List Str
  | [] => [[]]
  | c :: rest =>
    if c = sep then [] :: splitChar sep rest
    else match splitChar sep rest with
      | [] => [[c]]
      | h :: t => (c :: h) :: t

/-- Python `sep.join(parts)`. -/
def joinSep (sep : Str) : List Str → Str
  | [] => []
  | [x] => x
  | x :: xs => x ++ sep ++ joinSep sep xs

/-- Decimal digit value of a character, if any. -/
def digitVal (c : Char) : Option Nat :=
  if '0' ≤ c ∧ c ≤ '9' then some (c.toNat - '0'.toNat) else none

/-- Parses a non-empty all-digit string as a natural number. -/
def parseDigits : Str → Option Nat
  | [] => none
  | l => l.foldl (fun acc c =>
      match acc, digitVal c with
      | some a, some d => some (a * 10 + d)
      | _, _ => none) (some 0)

/-- Python `int(s)`: strips whitespace, allows one sign, then decimal digits
(digit-group underscores are not modelled; the source only feeds it plain
numeric speaker ids from configuration). `none` models `ValueError`. -/
def pyParseInt (s : Str) : Option Int :=
  match pstrip s with
  | '+' :: rest => (parseDigits rest).map Int.ofNat
  | '-' :: rest => (parseDigits rest).map (fun n => -(n : Int))
  | t => (parseDigits t).map Int.ofNat

/-- Decimal rendering of an integer, used for the synthesized label
`"Speaker {idx}"`. -/
def intStr (i : Int) : Str := (toString i).data

/-! Embedding of `pipeline/audio_utils.py`: the response-processing part of
`transcribe_with_deepgram` (lines 73-232).  The Deepgram response `data` is
modelled by `RawResult`; absent or `None` JSON fields become `none` / `[]`.
Times are floats in the source but are only carried around (never computed
with), so they are modelled as opaque `Int` values. -/

/-- One entry of `alternatives[0].words`. -/
structure RawWord where
  word : Str := []
  speaker : Option Int := none
  start : Option Int := none
  end_ : Option Int := none
deriving DecidableEq

/-- One entry of `alternatives[0].paragraphs.paragraphs`. -/
structure RawPara where
  speaker : Option Int := none
  start : Option Int := none
  end_ : Option Int := none
  text : Str := []
deriving DecidableEq

/-- One entry of `results.utterances`. -/
structure RawUtt where
  speaker : Option Int := none
  start : Option Int := none
  end_ : Option Int := none
  transcript : Str := []
deriving DecidableEq

/-- The fields of `alternatives[0]` that the code reads.  An absent
`paragraphs` dict or an absent inner list is modelled as `[]`; an absent
`words` field (anything but a list) as `none`. -/
structure RawAlt where
  transcript : Str := []
  words : Option (List RawWord) := none
  paragraphs : List RawPara := []
deriving DecidableEq

/-- The response fields the code reads. -/
structure RawResult where
  alt : RawAlt := {}
  utterances : List RawUtt := []
deriving DecidableEq

/-- A segment dict as built by `transcribe_with_deepgram`. -/
structure Segment where
  speaker : Str
  speaker_id : Option Int
  start : Option Int
  end_ : Option Int
  text : Str
deriving DecidableEq

/-- Parsing of the `DEEPGRAM_SPEAKER_LABELS` environment value: split on
commas, strip, keep non-empty parts (`speaker_labels` dict keyed by index). -/
def parseLabels : Option Str → List Str
  | none => []
  | some s => if s = [] then [] else ((splitChar ',' s).map pstrip).filter (· ≠ [])

/-- The nested `format_label` helper: configured label when the id indexes
into the label list, else a synthesized `"Speaker {idx}"` / `"Speaker"`. -/
def format_label (labels : List Str) : Option Int → Str
  | some i =>
    if 0 ≤ i ∧ i.toNat < labels.length then labels.getD i.toNat []
    else str "Speaker " ++ intStr i
  | none => str "Speaker"

/-- Utterance branch: one segment per utterance with non-empty stripped text. -/
def segsOfUtts (labels : List Str) (utts : List RawUtt) : List Segment :=
  utts.filterMap fun u =>
    let text := pstrip u.transcript
    if text ≠ [] then
      some ⟨format_label labels u.speaker, u.speaker, u.start, u.end_, text⟩
    else none

/-- Paragraph branch: one segment per paragraph with non-empty stripped text. -/
def segsOfParas (labels : List Str) (paras : List RawPara) : List Segment :=
  paras.filterMap fun p =>
    let text := pstrip p.text
    if text ≠ [] then
      some ⟨format_label labels p.speaker, p.speaker, p.start, p.end_, text⟩
    else none

/-- State of the word-grouping loop: `current_speaker`, `current_text`,
`seg_start`, `prev_end`, and the accumulated segments. -/
structure WordState where
  current_speaker : Option Int
  current_text : List Str
  seg_start : Option Int
  prev_end : Option Int
  segs : List Segment

/-- Closes the current word group into a segment (the `segments.append`
inside and after the word loop). -/
def closeGroup (labels : List Str) (st : WordState) : Segment :=
  ⟨format_label labels st.current_speaker, st.current_speaker, st.seg_start,
    st.prev_end, pstrip (joinSep (str " ") st.current_text)⟩

/-- One iteration of the word-grouping loop of the source. -/
def wordStep (labels : List Str) (st : WordState) (w : RawWord) : WordState :=
  let sp := w.speaker
  let st :=
    if st.current_speaker = none then
      { st with current_speaker := sp, seg_start := w.start }
    else st
  let st :=
    if sp ≠ st.current_speaker ∧ st.current_text ≠ [] then
      { st with
        segs := st.segs ++ [closeGroup labels st]
        current_text := []
        current_speaker := sp
        seg_start := w.start }
    else st
  { st with current_text := st.current_text ++ [w.word], prev_end := w.end_ }

/-- The word-grouping branch over the whole word list, including the final
flush. -/
def segsOfWords (labels : List Str) (words : List RawWord) : List Segment :=
  let st := words.foldl (wordStep labels) ⟨none, [], none, none, []⟩
  if st.current_text ≠ [] then st.segs ++ [closeGroup labels st] else st.segs

/-- The transcript line `"{speaker}: {text}"` of a segment. -/
def lineOf (s : Segment) : Str := s.speaker ++ str ": " ++ s.text

/-- Raw-segment construction (the `if/elif` chain of lines 95-147) together
with the branch-local `transcript_text` (`[]` plays the role of the unset /
empty value that later triggers the flat-transcript fallback). -/
def reconstruct (diarize : Bool) (labels : List Str) (r : RawResult) :
    Str × List Segment :=
  if diarize ∧ r.utterances ≠ [] then
    let segs := segsOfUtts labels r.utterances
    (pstrip (joinSep (str "\n") (segs.map lineOf)), segs)
  else if diarize ∧ r.alt.paragraphs ≠ [] then
    let segs := segsOfParas labels r.alt.paragraphs
    (pstrip (joinSep (str "\n") (segs.map lineOf)), segs)
  else if diarize ∧ (r.alt.words).isSome then
    ([], segsOfWords labels ((r.alt.words).getD []))
  else ([], [])

/-- One step of the merge loop: merge `seg` into `current` when the speakers
match and `seg["start"]` and `current["end"]` are numeric. -/
def mergeAux : Segment → List Segment → List Segment
  | current, [] => [current]
  | current, seg :: rest =>
    if seg.speaker = current.speaker ∧ seg.start.isSome ∧ current.end_.isSome then
      let current :=
        { current with
          end_ := seg.end_,
          text := if seg.text ≠ [] then pstrip (current.text ++ ' ' :: seg.text)
                  else current.text }
      mergeAux current rest
    else current :: mergeAux seg rest

/-- The nested `merge_consecutive_segments` helper. -/
def merge_consecutive_segments : List Segment → List Segment
  | [] => []
  | s :: rest => mergeAux s rest

/-- Dict insertion (`explicit_map[k] = v`): overwrite an existing key in
place, otherwise append. -/
def insertAssoc (m : List (Int × Str)) (k : Int) (v : Str) : List (Int × Str) :=
  match m with
  | [] => [(k, v)]
  | (k', v') :: t => if k' = k then (k, v) :: t else (k', v') :: insertAssoc t k v

/-- First-match association lookup, the `sid in mapping` / `mapping[sid]`
pair on dicts with unique keys. -/
def lookupAssoc (m : List (Int × Str)) (k : Int) : Option Str :=
  match m with
  | [] => none
  | (k', v) :: t => if k' = k then some v else lookupAssoc t k

/-- Parsing of the `DEEPGRAM_SPEAKER_MAP` environment value
(`"0=Doctor,1=Patient"`).  A malformed integer aborts the whole map to `{}`
(the `except` clause); pairs without `=` are skipped. -/
def parseSpeakerMap : Option Str → List (Int × Str)
  | none => []
  | some s =>
    if s = [] then []
    else
      let pairs := ((splitChar ',' s).map pstrip).filter (· ≠ [])
      let step := pairs.foldl (fun acc pair =>
        match acc with
        | none => none
        | some m =>
          match pySplitFirst? (str "=") pair with
          | none => some m
          | some (k, v) =>
            match pyParseInt (pstrip k) with
            | none => none
            | some i => some (insertAssoc m i (pstrip v))) (some [])
      step.getD []

/-- The `wants_doctor_patient` condition: the lowered configured labels
contain both `"doctor"` and `"patient"`, or the explicit-map environment
string mentions `"Doctor"` or `"Patient"`. -/
def wantsDoctorPatient (labels : List Str) (mapEnv : Option Str) : Bool :=
  ((labels.any fun n => pyLower n = str "doctor") &&
    (labels.any fun n => pyLower n = str "patient")) ||
  (match mapEnv with
   | some s => pyContains s (str "Doctor") || pyContains s (str "Patient")
   | none => false)

/-- The fixed doctor keyword list of the heuristic. -/
def doctor_keywords : List Str :=
  [str "prescribe", str "medication", str "take", str "dosage", str "follow-up",
   str "schedule", str "diagnosis", str "assessment", str "plan", str "capsule",
   str "tablet", str "appointment", str "antibiotic", str "syrup",
   str "recommend", str "review", str "visit", str "emergency"]

/-- The fixed patient keyword list of the heuristic. -/
def patient_keywords : List Str :=
  [str "i ", str "my ", str "me ", str "feel", str "pain", str "fever",
   str "cough", str "can i", str "should i", str "i\x27ll", str "i am",
   str "i have", str "symptom", str "book"]

/-- Number of keywords of `kws` occurring in the lowered text (each keyword
contributes at most 1 per segment, as in the source's `if kw in text_l`). -/
def keywordHits (kws : List Str) (text : Str) : Nat :=
  (kws.filter (fun kw => pyContains (pyLower text) kw)).length

/-- The doctor score of a speaker id over all its segments. -/
def doctorScore (segs : List Segment) (sid : Int) : Nat :=
  ((segs.filter (fun s => s.speaker_id = some sid)).map
    (fun s => keywordHits doctor_keywords s.text)).sum

/-- The patient score of a speaker id over all its segments. -/
def patientScore (segs : List Segment) (sid : Int) : Nat :=
  ((segs.filter (fun s => s.speaker_id = some sid)).map
    (fun s => keywordHits patient_keywords s.text)).sum

/-- Insertion sort on integers, modelling Python `sorted` (ascending). -/
def insertSorted (i : Int) : List Int → List Int
  | [] => [i]
  | j :: t => if i ≤ j then i :: j :: t else j :: insertSorted i t

/-- Sorts a list of integers ascending. -/
def sortInts : List Int → List Int
  | [] => []
  | i :: t => insertSorted i (sortInts t)

/-- `sorted({s["speaker_id"] for s in segments if s["speaker_id"] is not None})`. -/
def speakerIds (segs : List Segment) : List Int :=
  sortInts (segs.filterMap Segment.speaker_id).dedup

/-- The doctor-minus-patient margin used by the two-speaker decision rule. -/
def doctorMargin (segs : List Segment) (sid : Int) : Int :=
  (doctorScore segs sid : Int) - (patientScore segs sid : Int)

/-- The heuristic role mapping (lines 208-221): for exactly two ids compare
margins with the Patient-first tie-break on the sorted id list; otherwise a
per-id independent decision. -/
def heuristicMapping (segs : List Segment) : List (Int × Str) :=
  match speakerIds segs with
  | [a, b] =>
    if doctorMargin segs a = doctorMargin segs b then
      [(a, str "Patient"), (b, str "Doctor")]
    else if doctorMargin segs a > doctorMargin segs b then
      [(a, str "Doctor"), (b, str "Patient")]
    else [(b, str "Doctor"), (a, str "Patient")]
  | ids => ids.map fun sid =>
      (sid, if patientScore segs sid ≤ doctorScore segs sid then str "Doctor"
            else str "Patient")

/-- Rewrites each segment's speaker label from the mapping when its id is a
key (`if sid in mapping: s["speaker"] = mapping[sid]`). -/
def applyMapping (m : List (Int × Str)) (segs : List Segment) : List Segment :=
  segs.map fun s =>
    match s.speaker_id with
    | some sid =>
      match lookupAssoc m sid with
      | some role => { s with speaker := role }
      | none => s
    | none => s

/-- The response-processing tail of `transcribe_with_deepgram` (lines
73-232): build segments, fall back to the flat transcript, merge, then apply
the heuristic and the explicit speaker map. -/
def transcribe_with_deepgram_post (labelsEnv mapEnv : Option Str)
    (diarize : Bool) (r : RawResult) : Str × List Segment :=
  let labels := parseLabels labelsEnv
  let (t0, rawSegs) := reconstruct diarize labels r
  let transcript := if t0 = [] then pstrip r.alt.transcript else t0
  let segs := merge_consecutive_segments rawSegs
  let emap := parseSpeakerMap mapEnv
  let segs :=
    if wantsDoctorPatient labels mapEnv ∧ emap = [] then
      applyMapping (heuristicMapping segs) segs
    else segs
  let segs := if emap ≠ [] then applyMapping emap segs else segs
  (transcript, segs)

/-! Embedding of `pipeline/gemini_llm.py`, `query_gemini_summary`.  The
oracle call plus the `json.loads` of the fence-stripped response text are
summarized by the outcomes the code branches on: the call raising, the text
failing to parse as JSON (including empty text), the text parsing to a
non-dict JSON value (the key-filling mutation then raises `TypeError`,
caught by the outer handler), or parsing to a dict.  Dict values are
modelled as strings (only key presence and the `"N/A"` sentinel matter to
the code). -/

/-- Outcome of `generate_content` followed by `json.loads`. -/
inductive GeminiOutcome where
  | raise : GeminiOutcome
  | parseFail : GeminiOutcome
  | nonDictJson : GeminiOutcome
  | dictJson : List (Str × Str) → GeminiOutcome
deriving DecidableEq

/-- First-match lookup in a string-keyed dict. -/
def getKey : List (Str × Str) → Str → Option Str
  | [], _ => none
  | (k', v) :: t, k => if k' = k then some v else getKey t k

/-- The four SOAP keys, in the order the filling loop visits them. -/
def soapKeys : List Str :=
  [str "Subjective", str "Objective", str "Assessment", str "Plan"]

/-- The all-`"N/A"` fallback record. -/
def soapAllNA : List (Str × Str) := soapKeys.map fun k => (k, str "N/A")

/-- `if key not in result: result[key] = "N/A"` (dict insertion appends). -/
def fillMissing (d : List (Str × Str)) (k : Str) : List (Str × Str) :=
  if (getKey d k).isSome then d else d ++ [(k, str "N/A")]

/-- The `query_gemini_summary` result as a function of the oracle outcome. -/
def query_gemini_summary : GeminiOutcome → List (Str × Str)
  | .dictJson d => soapKeys.foldl fillMissing d
  | _ => soapAllNA

/-! Embedding of `agent/tools.py` (`send_email_schedule`) and
`agent/core.py` (`process_appointment`,
`generate_appointment_email_content`), plus the `approve_plan_api` guard of
`app.py`.  The LLM and SendGrid collaborators are modelled as outcome
parameters; calls to the email collaborator are logged in the result. -/

/-- The configuration read by `send_email_schedule` (`EMAIL_ENABLED`,
`SENDGRID_API_KEY`; the key is `None` or a string, empty counting as
unset). -/
structure ToolsConfig where
  emailEnabled : Bool
  sendgridKey : Option Str
deriving DecidableEq

/-- Outcome of the SendGrid `sg.send` round trip: success, or an exception
whose rendered detail message is `detail`. -/
inductive SgOutcome where
  | ok : SgOutcome
  | exc : Str → SgOutcome
deriving DecidableEq

/-- The `{"status": ..., "message": ...}` dict returned by
`send_email_schedule`. -/
structure EmailToolResult where
  status : Str
  message : Str
deriving DecidableEq

/-- `send_email_schedule(details, user_email, email_content)`.  The second
component records whether the SendGrid provider was contacted at all. -/
def send_email_schedule (cfg : ToolsConfig) (sg : SgOutcome)
    (details _user_email email_content : Str) : EmailToolResult × Bool :=
  if ¬cfg.emailEnabled then
    (⟨str "disabled", str "Email sending is disabled."⟩, false)
  else if cfg.sendgridKey = none ∨ cfg.sendgridKey = some [] then
    (⟨str "error", str "Email service not configured."⟩, false)
  else
    let _content_to_send := if email_content ≠ [] then email_content else details
    match sg with
    | .ok => (⟨str "success", str "Email sent successfully"⟩, true)
    | .exc detail =>
      (⟨str "error", str "Failed to send email: " ++ detail⟩, true)

/-- `generate_appointment_email_content`: the fixed template with the
appointment text and the full plan substituted. -/
def generate_appointment_email_content (appointment_text plan_section : Str) :
    Str :=
  str "Subject: Medical Appointment Confirmation\n\nDear Patient,\n\nThis is a confirmation of your upcoming medical appointment based on your recent consultation.\n\nAPPOINTMENT DETAILS:\n" ++
  appointment_text ++
  str "\n\nFULL TREATMENT PLAN:\n" ++
  plan_section ++
  str "\n\nIMPORTANT REMINDERS:\n• Please arrive 15 minutes early for check-in\n• Bring your ID and insurance card\n• Bring a list of current medications\n• If you need to reschedule, please contact us at least 24 hours in advance\n\nIf you have any questions or concerns, please don\x27t hesitate to contact our office.\n\nBest regards,\nMedical Team\n\n---\nThis is an automated message. Please do not reply to this email.\n"

/-- Outcome of `llm.invoke`: the call raising (with its rendered message)
or returning a response whose `.content` is the analysis text. -/
inductive LlmOutcome where
  | raise : Str → LlmOutcome
  | content : Str → LlmOutcome
deriving DecidableEq

/-- The result dict of `process_appointment`; a field is `none` when the
branch does not put the key in the dict. -/
structure ProcResult where
  status : Str
  result? : Option Str := none
  message? : Option Str := none
  email_content? : Option Str := none
  error? : Option Str := none
deriving DecidableEq

/-- A `process_appointment` run: the returned dict plus the log of
`send_email_schedule(details, user_email, email_content)` calls. -/
structure ProcOutput where
  res : ProcResult
  calls : List (Str × Str × Str)
deriving DecidableEq

/-- The appointment value extracted by `process_appointment`: the chunk
`analysis.split("APPOINTMENT_FOUND:")[1]`, stripped — i.e. the text between
the first occurrence of the marker and the next occurrence (or the end),
when the marker occurs at all. -/
def appointmentValue (analysis : Str) : Option Str :=
  match pySplitFirst? (str "APPOINTMENT_FOUND:") analysis with
  | none => none
  | some (_, rest) =>
    match pySplitFirst? (str "APPOINTMENT_FOUND:") rest with
    | none => some (pstrip rest)
    | some (mid, _) => some (pstrip mid)

/-- Reading of the claim sentence "takes everything after the marker,
trimmed": the stripped suffix after the first occurrence of
`APPOINTMENT_FOUND:`.  Stated from the spec's words, for comparison with
`appointmentValue`. -/
def appointmentValueSpec (analysis : Str) : Option Str :=
  match pySplitFirst? (str "APPOINTMENT_FOUND:") analysis with
  | none => none
  | some (_, rest) => some (pstrip rest)

/-- The "No appointment found." result dict (final `return` of
`process_appointment`). -/
def noAppointmentResult (send_email : Bool) : ProcResult :=
  { status := str "success"
    result? := some (str "No appointment found.")
    email_content? :=
      if ¬send_email then some (str "No appointment information found in the plan.")
      else none }

/-- The `content_to_send` selection: the caller's custom content when it is
a non-empty string (Python truthiness), else the generated body. -/
def contentToSend (appointment_text plan_section : Str)
    (custom_email_content : Option Str) : Str :=
  match custom_email_content with
  | some c =>
    if c ≠ [] then c
    else generate_appointment_email_content appointment_text plan_section
  | none => generate_appointment_email_content appointment_text plan_section

/-- `process_appointment(plan_section, user_email, send_email,
custom_email_content)`, with the LLM outcome and the email collaborator
passed explicitly.  `emailTool` receives the same three strings the source
passes to `send_email_schedule`. -/
def process_appointment (emailTool : Str → Str → Str → EmailToolResult)
    (llm : LlmOutcome) (plan_section user_email : Str) (send_email : Bool)
    (custom_email_content : Option Str) : ProcOutput :=
  match llm with
  | .raise msg => ⟨{ status := str "error", error? := some msg }, []⟩
  | .content analysis =>
    match appointmentValue analysis with
    | some appointment_text =>
      if pyLower appointment_text ≠ str "none" ∧ appointment_text ≠ [] then
        let email_content :=
          generate_appointment_email_content appointment_text plan_section
        if ¬send_email then
          ⟨{ status := str "success"
             email_content? := some email_content
             message? := some (str "Email content generated for preview") }, []⟩
        else
          let content_to_send :=
            contentToSend appointment_text plan_section custom_email_content
          let email_result := emailTool appointment_text user_email content_to_send
          let call := [(appointment_text, user_email, content_to_send)]
          if email_result.status = str "success" then
            ⟨{ status := str "success"
               result? := some email_result.message
               message? := some (str "Appointment email sent successfully") }, call⟩
          else
            ⟨{ status := str "error"
               error? := some email_result.message
               message? := some (str "Failed to send appointment email") }, call⟩
      else ⟨noAppointmentResult send_email, []⟩
    | none => ⟨noAppointmentResult send_email, []⟩

/-- `process_appointment` as deployed: the email collaborator is
`send_email_schedule` under a concrete configuration. -/
def process_appointment_deploy (cfg : ToolsConfig) (sg : SgOutcome)
    (llm : LlmOutcome) (plan_section user_email : Str) (send_email : Bool)
    (custom_email_content : Option Str) : ProcOutput :=
  process_appointment (fun d u c => (send_email_schedule cfg sg d u c).1)
    llm plan_section user_email send_email custom_email_content

/-- Provider contacts of a deployed run: for each logged collaborator call,
whether `send_email_schedule` reached the SendGrid provider. -/
def deployProviderContacts (cfg : ToolsConfig) (sg : SgOutcome)
    (llm : LlmOutcome) (plan_section user_email : Str) (send_email : Bool)
    (custom_email_content : Option Str) : List Bool :=
  (process_appointment_deploy cfg sg llm plan_section user_email send_email
    custom_email_content).calls.map
    fun t => (send_email_schedule cfg sg t.1 t.2.1 t.2.2).2

/-- The observable outcome of one `approve_plan_api` request: HTTP status
code, top-level status/message strings, the number of `llm.invoke` calls
made, and the logged email-collaborator calls. -/
structure ApproveOutput where
  httpStatus : Nat
  status? : Option Str
  message : Str
  oracleCalls : Nat
  emailCalls : List (Str × Str × Str)
deriving DecidableEq

/-- The `approve_plan_api` handler of `app.py` (lines 275-360): the
plan-section guard, then the preview `process_appointment` call with
`send_email=False`, then — when sending was requested and the preview
produced an `email_content` key — the sending call.  Each
`process_appointment` call performs one `llm.invoke`. -/
def approve_plan_api (cfg : ToolsConfig) (sg : SgOutcome) (llm : LlmOutcome)
    (plan_section : Option Str) (user_email : Str) (send_email : Bool)
    (custom_email_content : Option Str) : ApproveOutput :=
  match plan_section with
  | none =>
    ⟨200, some (str "warning"), str "No valid plan section provided for approval.",
      0, []⟩
  | some p =>
    if p = [] ∨ pyLower (pstrip p) = str "n/a" then
      ⟨200, some (str "warning"), str "No valid plan section provided for approval.",
        0, []⟩
    else
      let preview := process_appointment_deploy cfg sg llm p user_email false none
      if preview.res.status = str "success" ∧ preview.res.email_content? ≠ none then
        if send_email then
          let sendRun :=
            process_appointment_deploy cfg sg llm p user_email true
              custom_email_content
          if sendRun.res.status = str "success" then
            ⟨200, none,
              str "Plan approved and actions executed (including appointment email).",
              2, preview.calls ++ sendRun.calls⟩
          else
            ⟨400, none,
              str "Failed to send email: " ++
                (sendRun.res.error?.getD (str "Unknown email sending error")),
              2, preview.calls ++ sendRun.calls⟩
        else
          ⟨200, none,
            str "Plan approved. Email content generated for review; sending not requested.",
            1, preview.calls⟩
      else
        ⟨200, none,
          str "Plan approved, but no appointment found or email generation failed.",
          1, preview.calls⟩

/-- Concrete segments for the tie-break analysis: speaker id 5 is
encountered first, id 2 second; neither text hits any keyword. -/
def tieFirstSeenSegs : List Segment :=
  [⟨str "Speaker 5", some 5, some 0, some 1, str "hello"⟩,
   ⟨str "Speaker 2", some 2, some 2, some 3, str "okay"⟩]

/-- Concrete raw result for the label-overwrite analysis: two speakers with
keyword-free texts under the configured label list `"Doctor,Patient"`. -/
def labeledTieRaw : RawResult :=
  { utterances := [⟨some 0, some 0, some 1, str "hello"⟩,
                   ⟨some 1, some 2, some 3, str "okay"⟩] }

theorem pySplitFirst_test : pySplitFirst? (str "AB") (str "xAByABz") =
    some (str "x", str "yABz") := by decide

theorem splitChar_test : splitChar ',' (str "a, b,,c") =
    [str "a", str " b", str "", str "c"] := by decide

theorem pstrip_test : pstrip (str "  a b  ") = str "a b" := by decide

theorem pyParseInt_test : pyParseInt (str " -42 ") = some (-42 : Int) := by decide
theorem pstrip_parts {s : Str} (h : pstrip s = s) :
    s.dropWhile isPySpace = s ∧ s.reverse.dropWhile isPySpace = s.reverse := by
  unfold pstrip at h
  have h1 : (s.dropWhile isPySpace).length = s.length := by
    have hle1 := (List.dropWhile_suffix (l := s) isPySpace).length_le
    have hle2 := (List.dropWhile_suffix (l := (s.dropWhile isPySpace).reverse) isPySpace).length_le
    have := congrArg List.length h
    simp only [List.length_reverse] at hle2 this
    omega
  have hd : s.dropWhile isPySpace = s :=
    (List.dropWhile_suffix isPySpace).eq_of_length h1
  rw [hd] at h
  refine ⟨hd, ?_⟩
  have h2 := congrArg List.reverse h
  rw [List.reverse_reverse] at h2
  exact h2

theorem head_not_space {l : Str} (h : l.dropWhile isPySpace = l) (c : Char) (t : Str)
    (hl : l = c :: t) : isPySpace c = false := by
  subst hl
  by_cases hc : isPySpace c
  · rw [List.dropWhile_cons_of_pos hc] at h
    have hle := (List.dropWhile_suffix (l := t) isPySpace).length_le
    have := congrArg List.length h
    simp at this
    omega
  · simpa using hc

theorem dropWhile_append_of_head {a b : Str} (ha : a.dropWhile isPySpace = a)
    (hna : a ≠ []) : (a ++ b).dropWhile isPySpace = a ++ b := by
  cases a with
  | nil => exact absurd rfl hna
  | cons c t =>
    have hc := head_not_space ha c t rfl
    rw [List.cons_append, List.dropWhile_cons_of_neg (by simp [hc])]

theorem pstrip_append {a b : Str} (ha : pstrip a = a) (hna : a ≠ [])
    (hb : pstrip b = b) (hnb : b ≠ []) :
    pstrip (a ++ ' ' :: b) = a ++ ' ' :: b := by
  obtain ⟨da, ra⟩ := pstrip_parts ha
  obtain ⟨db, rb⟩ := pstrip_parts hb
  have h1 : (a ++ ' ' :: b).dropWhile isPySpace = a ++ ' ' :: b :=
    dropWhile_append_of_head da hna
  have hrev : (a ++ ' ' :: b).reverse = b.reverse ++ ' ' :: a.reverse := by
    simp
  have hnbr : b.reverse ≠ [] := by simpa using hnb
  have h2 : (a ++ ' ' :: b).reverse.dropWhile isPySpace = (a ++ ' ' :: b).reverse := by
    rw [hrev]
    exact dropWhile_append_of_head rb hnbr
  unfold pstrip
  rw [h1, h2]
  simp

theorem getKey_append_of_isSome {d : List (Str × Str)} {k : Str}
    (e : List (Str × Str)) (h : (getKey d k).isSome) :
    getKey (d ++ e) k = getKey d k := by
  induction d with
  | nil => simp [getKey] at h
  | cons p t ih =>
    obtain ⟨k', v⟩ := p
    by_cases hk : k' = k
    · simp [getKey, hk]
    · simp only [getKey, hk, if_false] at h
      simp only [List.cons_append, getKey, hk, if_false]
      exact ih h

theorem getKey_append_of_none {d : List (Str × Str)} {k : Str}
    (e : List (Str × Str)) (h : getKey d k = none) :
    getKey (d ++ e) k = getKey e k := by
  induction d with
  | nil => simp [getKey]
  | cons p t ih =>
    obtain ⟨k', v⟩ := p
    by_cases hk : k' = k
    · simp [getKey, hk] at h
    · simp only [getKey, hk, if_false] at h
      simp only [List.cons_append, getKey, hk, if_false]
      exact ih h

theorem fillMissing_self_isSome (d : List (Str × Str)) (k : Str) :
    (getKey (fillMissing d k) k).isSome := by
  unfold fillMissing
  by_cases h : (getKey d k).isSome
  · rw [if_pos h]
    exact h
  · rw [if_neg h, getKey_append_of_none _ (Option.not_isSome_iff_eq_none.mp h)]
    simp [getKey]

theorem fillMissing_other (d : List (Str × Str)) (k k' : Str) (h : k' ≠ k) :
    getKey (fillMissing d k) k' = getKey d k' := by
  unfold fillMissing
  split
  · rfl
  · rcases h' : getKey d k' with _ | v
    · rw [getKey_append_of_none _ h']
      simp [getKey, Ne.symm h]
    · rw [getKey_append_of_isSome _ (by simp [h'])]
      exact h'

theorem fillMissing_preserve {d : List (Str × Str)} {k k' : Str}
    (h : (getKey d k').isSome) : (getKey (fillMissing d k) k').isSome := by
  unfold fillMissing
  split
  · exact h
  · rw [getKey_append_of_isSome _ h]
    exact h

theorem fillMissing_none_self (d : List (Str × Str)) (k : Str)
    (h : getKey d k = none) :
    getKey (fillMissing d k) k = some (str "N/A") := by
  unfold fillMissing
  rw [if_neg (by simp [h]), getKey_append_of_none _ h]
  simp [getKey]

theorem getKey_soapAllNA (k : Str) (hk : k ∈ soapKeys) :
    getKey soapAllNA k = some (str "N/A") := by
  simp only [soapKeys, List.mem_cons] at hk
  rcases hk with h | h | h | h | h
  · subst h; decide
  · subst h; decide
  · subst h; decide
  · subst h; decide
  · cases h

/-- C1: for every behavior of the text-generation oracle (call raising,
empty or non-JSON text, JSON that is not a dict, or a dict missing some
keys), `query_gemini_summary` returns a dict in which all four SOAP keys
are present, any key missing from the parsed dict is filled with `"N/A"`,
and on parse or call failure all four fields are `"N/A"`; being a total
function of the outcome, it never propagates an exception. -/
theorem query_gemini_summary_defensive (o : GeminiOutcome) :
    (∀ k ∈ soapKeys, (getKey (query_gemini_summary o) k).isSome) ∧
    ((o = GeminiOutcome.raise ∨ o = GeminiOutcome.parseFail ∨
        o = GeminiOutcome.nonDictJson) → query_gemini_summary o = soapAllNA) ∧
    (∀ d k, o = GeminiOutcome.dictJson d → k ∈ soapKeys → getKey d k = none →
      getKey (query_gemini_summary o) k = some (str "N/A")) := by
  refine ⟨?_, ?_, ?_⟩
  · intro k hk
    cases o with
    | dictJson d =>
      have hfold : query_gemini_summary (GeminiOutcome.dictJson d) =
          fillMissing (fillMissing (fillMissing
            (fillMissing d (str "Subjective")) (str "Objective"))
            (str "Assessment")) (str "Plan") := rfl
      rw [hfold]
      simp only [soapKeys, List.mem_cons] at hk
      rcases hk with h | h | h | h | h
      · subst h
        exact fillMissing_preserve (fillMissing_preserve
          (fillMissing_preserve (fillMissing_self_isSome d _)))
      · subst h
        exact fillMissing_preserve (fillMissing_preserve
          (fillMissing_self_isSome _ _))
      · subst h
        exact fillMissing_preserve (fillMissing_self_isSome _ _)
      · subst h
        exact fillMissing_self_isSome _ _
      · cases h
    | raise => rw [show query_gemini_summary GeminiOutcome.raise = soapAllNA from rfl,
        getKey_soapAllNA k hk]; rfl
    | parseFail => rw [show query_gemini_summary GeminiOutcome.parseFail = soapAllNA from rfl,
        getKey_soapAllNA k hk]; rfl
    | nonDictJson => rw [show query_gemini_summary GeminiOutcome.nonDictJson = soapAllNA from rfl,
        getKey_soapAllNA k hk]; rfl
  · rintro (h | h | h) <;> subst h <;> rfl
  · intro d k ho hk hnone
    subst ho
    have hfold : query_gemini_summary (GeminiOutcome.dictJson d) =
        fillMissing (fillMissing (fillMissing
          (fillMissing d (str "Subjective")) (str "Objective"))
          (str "Assessment")) (str "Plan") := rfl
    rw [hfold]
    simp only [soapKeys, List.mem_cons] at hk
    rcases hk with h | h | h | h | h
    · subst h
      rw [fillMissing_other _ _ _ (by decide), fillMissing_other _ _ _ (by decide),
        fillMissing_other _ _ _ (by decide)]
      exact fillMissing_none_self d _ hnone
    · subst h
      rw [fillMissing_other _ _ _ (by decide), fillMissing_other _ _ _ (by decide)]
      exact fillMissing_none_self _ _
        (by rw [fillMissing_other _ _ _ (by decide)]; exact hnone)
    · subst h
      rw [fillMissing_other _ _ _ (by decide)]
      refine fillMissing_none_self _ _ ?_
      rw [fillMissing_other _ _ _ (by decide), fillMissing_other _ _ _ (by decide)]
      exact hnone
    · subst h
      refine fillMissing_none_self _ _ ?_
      rw [fillMissing_other _ _ _ (by decide), fillMissing_other _ _ _ (by decide),
        fillMissing_other _ _ _ (by decide)]
      exact hnone
    · cases h

/-- Witness for C1: the theorem applied to a concrete oracle outcome, a
dict containing only the `Subjective` key, checking the filled `Plan` key. -/
theorem query_gemini_summary_defensive_witness :
    getKey (query_gemini_summary
        (GeminiOutcome.dictJson [(str "Subjective", str "cough")]))
      (str "Plan") = some (str "N/A") :=
  (query_gemini_summary_defensive
      (GeminiOutcome.dictJson [(str "Subjective", str "cough")])).2.2
    [(str "Subjective", str "cough")] (str "Plan") rfl (by decide) (by decide)

/-- Counterexample to C2 as stated: a raw result with no utterances, no
paragraphs and no word list yields an empty segment list, not exactly one
segment. -/
theorem transcribe_no_diarization_counterexample :
    (transcribe_with_deepgram_post none none true
        { alt := { transcript := str "hello world" } }).2.length ≠ 1 := by
  decide

/-- C2 amended: for every raw recognition result with no diarization data
(no utterances, no paragraphs, no word list), the reconstruction returns an
empty segment list — not a single fallback segment — and the returned
transcript is the oracle's stripped flat transcript. -/
theorem transcribe_no_diarization (labelsEnv mapEnv : Option Str)
    (r : RawResult) (hu : r.utterances = []) (hp : r.alt.paragraphs = [])
    (hw : r.alt.words = none) :
    transcribe_with_deepgram_post labelsEnv mapEnv true r =
      (pstrip r.alt.transcript, []) := by
  unfold transcribe_with_deepgram_post reconstruct
  simp [hu, hp, hw, merge_consecutive_segments, applyMapping]

/-- Witness for C2 amended: a concrete diarization-free result. -/
theorem transcribe_no_diarization_witness :
    transcribe_with_deepgram_post none none true
        { alt := { transcript := str " hi " } } = (str "hi", []) :=
  (transcribe_no_diarization none none
      { alt := { transcript := str " hi " } } rfl rfl rfl).trans (by decide)

/-- C5: three consecutive segments with the same speaker label and numeric
start/end values merge into exactly one segment keeping the first `start`,
taking the last `end`, and joining the three texts in order with single
spaces.  The text hypotheses are the Segment invariant of the
reconstruction: texts are non-empty and already stripped. -/
theorem merge_three_same_speaker (s1 s2 s3 : Segment)
    (hsp2 : s2.speaker = s1.speaker) (hsp3 : s3.speaker = s1.speaker)
    (h1s : s1.start.isSome) (h1e : s1.end_.isSome)
    (h2s : s2.start.isSome) (h2e : s2.end_.isSome)
    (h3s : s3.start.isSome) (h3e : s3.end_.isSome)
    (ht1 : pstrip s1.text = s1.text) (hn1 : s1.text ≠ [])
    (ht2 : pstrip s2.text = s2.text) (hn2 : s2.text ≠ [])
    (ht3 : pstrip s3.text = s3.text) (hn3 : s3.text ≠ []) :
    merge_consecutive_segments [s1, s2, s3] =
      [{ s1 with end_ := s3.end_
                 text := s1.text ++ ' ' :: s2.text ++ ' ' :: s3.text }] := by
  have hA : pstrip (s1.text ++ ' ' :: s2.text) = s1.text ++ ' ' :: s2.text :=
    pstrip_append ht1 hn1 ht2 hn2
  have hAne : s1.text ++ ' ' :: s2.text ≠ [] := by simp
  have hB : pstrip ((s1.text ++ ' ' :: s2.text) ++ ' ' :: s3.text) =
      (s1.text ++ ' ' :: s2.text) ++ ' ' :: s3.text :=
    pstrip_append hA hAne ht3 hn3
  show mergeAux s1 [s2, s3] = _
  rw [mergeAux, if_pos ⟨hsp2, h2s, h1e⟩]
  rw [if_pos hn2, hA]
  rw [mergeAux, if_pos ⟨hsp3, h3s, h2e⟩]
  rw [if_pos hn3, hB]
  rw [mergeAux]

/-- Witness for C5: three concrete same-speaker segments. -/
theorem merge_three_same_speaker_witness :
    merge_consecutive_segments
      [⟨str "Doctor", some 0, some 1, some 2, str "hello"⟩,
       ⟨str "Doctor", some 0, some 3, some 4, str "there"⟩,
       ⟨str "Doctor", some 0, some 5, some 6, str "friend"⟩] =
      [⟨str "Doctor", some 0, some 1, some 6, str "hello there friend"⟩] :=
  (merge_three_same_speaker
      ⟨str "Doctor", some 0, some 1, some 2, str "hello"⟩
      ⟨str "Doctor", some 0, some 3, some 4, str "there"⟩
      ⟨str "Doctor", some 0, some 5, some 6, str "friend"⟩
      rfl rfl (by decide) (by decide) (by decide) (by decide) (by decide)
      (by decide) (by decide) (by decide) (by decide) (by decide) (by decide)
      (by decide)).trans (by decide)

/-- Counterexample to C3 as stated: with ids encountered in order `[5, 2]`
and zero keyword hits each, the first-encountered id 5 is assigned
`"Doctor"`, not `"Patient"` — the tie-break uses the numerically sorted id
list, not encounter order. -/
theorem heuristic_tie_first_seen_counterexample :
    (tieFirstSeenSegs.map Segment.speaker_id).head? = some (some 5) ∧
    lookupAssoc (heuristicMapping tieFirstSeenSegs) 5 = some (str "Doctor") ∧
    str "Doctor" ≠ str "Patient" := by decide

/-- C3 amended: when the two-speaker heuristic sees exactly two distinct
speaker ids with equal doctor-minus-patient margins, the numerically
smaller id (the first of the sorted id list) is assigned `"Patient"` and
the larger `"Doctor"`. -/
theorem heuristic_tie_sorted (segs : List Segment) (a b : Int)
    (hids : speakerIds segs = [a, b])
    (htie : doctorMargin segs a = doctorMargin segs b) :
    heuristicMapping segs = [(a, str "Patient"), (b, str "Doctor")] := by
  unfold heuristicMapping
  rw [hids]
  simp [htie]

/-- Witness for C3 amended: ids 2 and 5 with zero keyword hits each. -/
theorem heuristic_tie_sorted_witness :
    heuristicMapping
      [⟨str "Speaker 2", some 2, some 0, some 1, str "hello"⟩,
       ⟨str "Speaker 5", some 5, some 2, some 3, str "okay"⟩] =
      [((2 : Int), str "Patient"), ((5 : Int), str "Doctor")] :=
  heuristic_tie_sorted _ 2 5 (by decide) (by decide)

/-- Counterexample to C4 as stated: with `DEEPGRAM_SPEAKER_LABELS =
"Doctor,Patient"`, speaker id 0 is resolved by the label list to
`"Doctor"`, yet the heuristic (which the label list itself enables) scores
both ids and overwrites the final labels, ending with id 0 labelled
`"Patient"`. -/
theorem label_list_overwrite_counterexample :
    format_label (parseLabels (some (str "Doctor,Patient"))) (some 0) =
      str "Doctor" ∧
    ((transcribe_with_deepgram_post (some (str "Doctor,Patient")) none true
        labeledTieRaw).2.map Segment.speaker) = [str "Patient", str "Doctor"] ∧
    str "Patient" ≠ str "Doctor" := by decide

/-- C4 amended: a speaker id present in the configured ordered label list
gets its configured name verbatim when segments are constructed, and that
label is final whenever the heuristic is not enabled (the configuration
does not request Doctor/Patient roles) and the explicit speaker map is
empty; label-list-resolved ids are, however, not excluded from heuristic
scoring, and when the label list contains both `"doctor"` and `"patient"`
(case-insensitively) the heuristic may overwrite the configured label. -/
theorem label_list_verbatim (labelsEnv mapEnv : Option Str) (r : RawResult)
    (hw : wantsDoctorPatient (parseLabels labelsEnv) mapEnv = false)
    (hm : parseSpeakerMap mapEnv = []) :
    (∀ i : Nat, i < (parseLabels labelsEnv).length →
      format_label (parseLabels labelsEnv) (some (i : Int)) =
        (parseLabels labelsEnv).getD i []) ∧
    (transcribe_with_deepgram_post labelsEnv mapEnv true r).2 =
      merge_consecutive_segments (reconstruct true (parseLabels labelsEnv) r).2 := by
  constructor
  · intro i hi
    show (if 0 ≤ (i : Int) ∧ (i : Int).toNat < (parseLabels labelsEnv).length
        then (parseLabels labelsEnv).getD (i : Int).toNat []
        else str "Speaker " ++ intStr (i : Int)) = (parseLabels labelsEnv).getD i []
    rw [if_pos ⟨Int.natCast_nonneg i, by simpa using hi⟩]
    simp
  · unfold transcribe_with_deepgram_post
    simp [hw, hm]

/-- Witness for C4 amended: labels `"Alice,Bob"` (no Doctor/Patient
request), no explicit map, an arbitrary concrete raw result. -/
theorem label_list_verbatim_witness :
    format_label (parseLabels (some (str "Alice,Bob"))) (some 0) =
      str "Alice" ∧
    (transcribe_with_deepgram_post (some (str "Alice,Bob")) none true
        labeledTieRaw).2 =
      merge_consecutive_segments
        (reconstruct true (parseLabels (some (str "Alice,Bob"))) labeledTieRaw).2 :=
  ⟨((label_list_verbatim (some (str "Alice,Bob")) none labeledTieRaw
      (by decide) (by decide)).1 0 (by decide)).trans (by decide),
   (label_list_verbatim (some (str "Alice,Bob")) none labeledTieRaw
      (by decide) (by decide)).2⟩

/-- Counterexample to C6 as stated: when the marker occurs twice, the code
takes only the text between the first and second occurrence, not everything
after the first marker. -/
theorem appointment_value_counterexample :
    appointmentValue (str "APPOINTMENT_FOUND: visit APPOINTMENT_FOUND: none") =
      some (str "visit") ∧
    appointmentValueSpec (str "APPOINTMENT_FOUND: visit APPOINTMENT_FOUND: none") =
      some (str "visit APPOINTMENT_FOUND: none") ∧
    str "visit" ≠ str "visit APPOINTMENT_FOUND: none" := by decide

/-- C6 amended: `process_appointment` takes the text after the first
`APPOINTMENT_FOUND:` marker up to the next occurrence of the marker (or the
end, when it occurs once), trimmed, as the appointment value; when the
marker is absent, or the trimmed value equals `"none"` case-insensitively,
it returns the "No appointment found." result with no email-collaborator
call; the spec's example analysis text yields the expected value. -/
theorem process_appointment_plan_extraction
    (emailTool : Str → Str → Str → EmailToolResult)
    (plan_section user_email : Str) (send_email : Bool)
    (custom : Option Str) (analysis : Str) :
    (appointmentValue analysis = none ↔
      pyContains analysis (str "APPOINTMENT_FOUND:") = false) ∧
    (appointmentValue analysis = none →
      process_appointment emailTool (LlmOutcome.content analysis) plan_section
        user_email send_email custom = ⟨noAppointmentResult send_email, []⟩) ∧
    (∀ v, appointmentValue analysis = some v → pyLower v = str "none" →
      process_appointment emailTool (LlmOutcome.content analysis) plan_section
        user_email send_email custom = ⟨noAppointmentResult send_email, []⟩) ∧
    appointmentValue
        (str "MEDICINES_FOUND: none\nAPPOINTMENT_FOUND: Follow-up in 2 weeks for blood pressure check") =
      some (str "Follow-up in 2 weeks for blood pressure check") := by
  refine ⟨?_, ?_, ?_, by decide⟩
  · unfold appointmentValue pyContains
    cases h : pySplitFirst? (str "APPOINTMENT_FOUND:") analysis with
    | none => simp
    | some p =>
      obtain ⟨a, b⟩ := p
      cases hb : pySplitFirst? (str "APPOINTMENT_FOUND:") b <;> simp [hb]
  · intro h
    simp only [process_appointment, h]
  · intro v hv hnone
    simp only [process_appointment, hv]
    rw [if_neg (by simp [hnone])]

/-- Witness for C6 amended: a marker-free analysis text degrades to the
no-appointment result with zero collaborator calls. -/
theorem process_appointment_plan_extraction_witness :
    process_appointment (fun _ _ _ => ⟨str "success", str "ok"⟩)
        (LlmOutcome.content (str "nothing to see")) (str "plan text")
        (str "a@b.c") true none = ⟨noAppointmentResult true, []⟩ :=
  (process_appointment_plan_extraction (fun _ _ _ => ⟨str "success", str "ok"⟩)
      (str "plan text") (str "a@b.c") true none (str "nothing to see")).2.1
    (by decide)

/-- C7: with `send_email = false` and an appointment found, the result is a
success carrying the fully composed, non-empty email body under
`email_content`, and the email-delivery collaborator is never called. -/
theorem preview_generates_without_dispatch
    (emailTool : Str → Str → Str → EmailToolResult)
    (plan_section user_email : Str) (custom : Option Str) (analysis v : Str)
    (hv : appointmentValue analysis = some v)
    (hnone : pyLower v ≠ str "none") (hne : v ≠ []) :
    process_appointment emailTool (LlmOutcome.content analysis) plan_section
        user_email false custom =
      ⟨{ status := str "success"
         email_content? := some (generate_appointment_email_content v plan_section)
         message? := some (str "Email content generated for preview") }, []⟩ ∧
    generate_appointment_email_content v plan_section ≠ [] := by
  constructor
  · simp only [process_appointment, hv]
    rw [if_pos ⟨hnone, hne⟩]
    rfl
  · unfold generate_appointment_email_content
    exact List.append_ne_nil_of_right_ne_nil _ (by decide)

/-- Witness for C7: a concrete analysis with an appointment. -/
theorem preview_generates_without_dispatch_witness :
    process_appointment (fun _ _ _ => ⟨str "success", str "ok"⟩)
        (LlmOutcome.content (str "APPOINTMENT_FOUND: next Tuesday"))
        (str "the plan") (str "a@b.c") false none =
      ⟨{ status := str "success"
         email_content? := some (generate_appointment_email_content
           (str "next Tuesday") (str "the plan"))
         message? := some (str "Email content generated for preview") }, []⟩ :=
  (preview_generates_without_dispatch (fun _ _ _ => ⟨str "success", str "ok"⟩)
      (str "the plan") (str "a@b.c") none
      (str "APPOINTMENT_FOUND: next Tuesday") (str "next Tuesday")
      (by decide) (by decide) (by decide)).1

/-- C8: a request whose plan section is absent, empty, or equal to
`"n/a"` after trimming and lowercasing is rejected by the handler's guard
before any oracle call: the response is the warning result, zero
`llm.invoke` calls are made, and the email collaborator is never called. -/
theorem approve_plan_rejects_placeholder (cfg : ToolsConfig) (sg : SgOutcome)
    (llm : LlmOutcome) (plan_section : Option Str) (user_email : Str)
    (send_email : Bool) (custom : Option Str)
    (h : ∀ p, plan_section = some p →
      p = [] ∨ pyLower (pstrip p) = str "n/a") :
    approve_plan_api cfg sg llm plan_section user_email send_email custom =
      ⟨200, some (str "warning"),
        str "No valid plan section provided for approval.", 0, []⟩ := by
  cases plan_section with
  | none => rfl
  | some p =>
    have hp := h p rfl
    simp only [approve_plan_api]
    rw [if_pos hp]

/-- Witness for C8: the literal placeholder plan `" N/A "`. -/
theorem approve_plan_rejects_placeholder_witness :
    approve_plan_api ⟨true, some (str "key")⟩ SgOutcome.ok
        (LlmOutcome.content (str "APPOINTMENT_FOUND: tomorrow"))
        (some (str " N/A ")) (str "a@b.c") true none =
      ⟨200, some (str "warning"),
        str "No valid plan section provided for approval.", 0, []⟩ :=
  approve_plan_rejects_placeholder ⟨true, some (str "key")⟩ SgOutcome.ok
    (LlmOutcome.content (str "APPOINTMENT_FOUND: tomorrow"))
    (some (str " N/A ")) (str "a@b.c") true none
    (fun p hp => by cases hp; right; decide)

/-- C9: with `send_email = true`, an appointment found, and the email
collaborator reporting failure, the returned result has status `"error"`,
carries the collaborator's failure message under `error`, and is distinct
from the "No appointment found." success result. -/
theorem send_failure_surfaced (emailTool : Str → Str → Str → EmailToolResult)
    (plan_section user_email : Str) (custom : Option Str) (analysis v : Str)
    (hv : appointmentValue analysis = some v)
    (hnone : pyLower v ≠ str "none") (hne : v ≠ [])
    (hfail : ∀ d u c, (emailTool d u c).status ≠ str "success") :
    ((process_appointment emailTool (LlmOutcome.content analysis) plan_section
        user_email true custom).res.status = str "error") ∧
    (∃ d u c,
      (process_appointment emailTool (LlmOutcome.content analysis) plan_section
          user_email true custom).calls = [(d, u, c)] ∧
      (process_appointment emailTool (LlmOutcome.content analysis) plan_section
          user_email true custom).res.error? = some (emailTool d u c).message) ∧
    (process_appointment emailTool (LlmOutcome.content analysis) plan_section
        user_email true custom).res ≠ noAppointmentResult true := by
  have hred : process_appointment emailTool (LlmOutcome.content analysis)
      plan_section user_email true custom =
      ⟨{ status := str "error"
         error? := some (emailTool v user_email (contentToSend v plan_section
           custom)).message
         message? := some (str "Failed to send appointment email") },
        [(v, user_email, contentToSend v plan_section custom)]⟩ := by
    simp only [process_appointment, hv]
    rw [if_pos ⟨hnone, hne⟩]
    rw [if_neg (by simp)]
    rw [if_neg (hfail v user_email (contentToSend v plan_section custom))]
  rw [hred]
  refine ⟨rfl, ⟨v, user_email, contentToSend v plan_section custom, rfl, rfl⟩, ?_⟩
  intro hcontra
  have := congrArg ProcResult.status hcontra
  simp only [noAppointmentResult] at this
  exact absurd this (by decide)

/-- Witness for C9: a concrete failing collaborator. -/
theorem send_failure_surfaced_witness :
    ((process_appointment (fun _ _ _ => ⟨str "error", str "boom"⟩)
        (LlmOutcome.content (str "APPOINTMENT_FOUND: visit")) (str "plan")
        (str "a@b.c") true none).res.status = str "error") ∧
    (process_appointment (fun _ _ _ => ⟨str "error", str "boom"⟩)
        (LlmOutcome.content (str "APPOINTMENT_FOUND: visit")) (str "plan")
        (str "a@b.c") true none).res ≠ noAppointmentResult true :=
  (fun h => ⟨h.1, h.2.2⟩)
    (send_failure_surfaced (fun _ _ _ => ⟨str "error", str "boom"⟩)
      (str "plan") (str "a@b.c") none (str "APPOINTMENT_FOUND: visit")
      (str "visit") (by decide) (by decide) (by decide)
      (fun _ _ _ => (by decide :
        (⟨str "error", str "boom"⟩ : EmailToolResult).status ≠ str "success")))

/-- C10: when `EMAIL_ENABLED` is false, `send_email_schedule` returns the
`"disabled"` result without contacting the email provider, so no deployed
`process_appointment` run can dispatch an email. -/
theorem email_disabled_no_dispatch (cfg : ToolsConfig) (sg : SgOutcome)
    (hcfg : cfg.emailEnabled = false) :
    (∀ d u c, send_email_schedule cfg sg d u c =
      (⟨str "disabled", str "Email sending is disabled."⟩, false)) ∧
    (∀ llm plan_section user_email send_email custom,
      ∀ b ∈ deployProviderContacts cfg sg llm plan_section user_email
          send_email custom, b = false) := by
  have h1 : ∀ d u c : Str, send_email_schedule cfg sg d u c =
      (⟨str "disabled", str "Email sending is disabled."⟩, false) := by
    intro d u c
    unfold send_email_schedule
    rw [if_pos (by simp [hcfg])]
  refine ⟨h1, ?_⟩
  intro llm plan_section user_email send_email custom b hb
  unfold deployProviderContacts at hb
  obtain ⟨t, _, rfl⟩ := List.mem_map.mp hb
  rw [h1]

/-- Witness for C10: a concrete disabled configuration. -/
theorem email_disabled_no_dispatch_witness :
    send_email_schedule ⟨false, some (str "key")⟩ SgOutcome.ok (str "d")
        (str "u") (str "c") =
      (⟨str "disabled", str "Email sending is disabled."⟩, false) :=
  (email_disabled_no_dispatch ⟨false, some (str "key")⟩ SgOutcome.ok rfl).1
    (str "d") (str "u") (str "c")
